import Mathlib

/-!
Shallow embedding of the geofence proximity tracker
(`src/src/routes/+page.svelte`): the component's module-level state, its
reactive derived values, the geolocation subscription lifecycle
(`startWatching` / `stopWatching` and the two `watchPosition` callbacks),
and the pure math utilities (`haversineMeters`, `initialBearing`,
`degToCompass`).

JavaScript numbers are modelled as exact arithmetic: stored state values as
rationals, the transcendental math as real numbers.  `null`-able values are
`Option`s.  The JS remainder operator `%` is `a - b * trunc (a / b)`
(truncated division), `Math.round x` is `⌊x + 1/2⌋`, and `Math.atan2 y x` is
the argument of the complex number `x + y*I`.  Leaflet map objects and DOM
rendering are the presentation layer and are outside the modelled state.
-/

namespace Location

/-- JS `Math.trunc` on a real: round toward zero. -/
noncomputable def jsTrunc (x : ℝ) : ℤ := if 0 ≤ x then ⌊x⌋ else ⌈x⌉

/-- The JS `%` operator on real operands: `a - b * trunc (a / b)`. -/
noncomputable def jsMod (a b : ℝ) : ℝ := a - b * (jsTrunc (a / b) : ℝ)

/-- JS `Math.trunc` on a rational (used where state arithmetic stays rational). -/
def jsTruncQ (x : ℚ) : ℤ := if 0 ≤ x then ⌊x⌋ else ⌈x⌉

/-- The JS `%` operator on rational operands. -/
def jsModQ (a b : ℚ) : ℚ := a - b * (jsTruncQ (a / b) : ℚ)

/-- JS `Math.round`: half-up rounding, `⌊x + 1/2⌋`. -/
noncomputable def jsRound (x : ℝ) : ℤ := ⌊x + 1 / 2⌋

/-- JS `Math.atan2 y x`: the argument of the complex number `x + y*I`. -/
noncomputable def atan2 (y x : ℝ) : ℝ := Complex.arg ⟨x, y⟩

/-- `toRad` helper of `haversineMeters` / `initialBearing` (lines 231, 242). -/
noncomputable def toRad (d : ℝ) : ℝ := d * Real.pi / 180

/-- `toDeg` helper of `initialBearing` (line 243). -/
noncomputable def toDeg (r : ℝ) : ℝ := r * 180 / Real.pi

/-- `haversineMeters(lat1, lon1, lat2, lon2)` (source lines 230–238). -/
noncomputable def haversineMeters (lat1 lon1 lat2 lon2 : ℝ) : ℝ :=
  let R : ℝ := 6371000
  let dLat := toRad (lat2 - lat1)
  let dLon := toRad (lon2 - lon1)
  let a := Real.sin (dLat / 2) ^ 2 +
    Real.cos (toRad lat1) * Real.cos (toRad lat2) * Real.sin (dLon / 2) ^ 2
  let c := 2 * atan2 (Real.sqrt a) (Real.sqrt (1 - a))
  R * c

/-- `initialBearing(lat1, lon1, lat2, lon2)` (source lines 241–248). -/
noncomputable def initialBearing (lat1 lon1 lat2 lon2 : ℝ) : ℝ :=
  let φ1 := toRad lat1
  let φ2 := toRad lat2
  let Δlam := toRad (lon2 - lon1)
  let y := Real.sin Δlam * Real.cos φ2
  let x := Real.cos φ1 * Real.sin φ2 - Real.sin φ1 * Real.cos φ2 * Real.cos Δlam
  jsMod (toDeg (atan2 y x) + 360) 360

/-- The 16 compass point abbreviations (source line 252). -/
def dirs : List String :=
  ["N", "NNE", "NE", "ENE", "E", "ESE", "SE", "SSE",
   "S", "SSW", "SW", "WSW", "W", "WNW", "NW", "NNW"]

/-- `degToCompass(d)` (source lines 250–254): `dirs[Math.round(d / 22.5) % 16]`,
with a `null` argument mapped to a dash.  A negative or out-of-range index is a
JS `undefined` array access, modelled as `none`. -/
noncomputable def degToCompass (d : Option ℝ) : Option String :=
  match d with
  | none => some ("–")
  | some x =>
    let i := Int.tmod (jsRound (x / 22.5)) 16
    if h : 0 ≤ i ∧ i.toNat < dirs.length then some (dirs.get ⟨i.toNat, h.2⟩)
    else none

/-- The coordinates carried by a geolocation fix (`pos.coords`); `heading` is
`none` for JS `null` or `NaN`. -/
structure Coords where
  latitude : ℚ
  longitude : ℚ
  heading : Option ℚ
deriving DecidableEq

/-- A geolocation position object (`pos`). -/
structure Position where
  coords : Coords
deriving DecidableEq

/-- The user-editable target (`{ lat, lon }`, source line 11). -/
structure Coord where
  lat : ℚ
  lon : ℚ
deriving DecidableEq

/-- Geolocation error codes (`err.code`, lines 221–226). -/
inductive GeoErrorCode
  | permissionDenied
  | positionUnavailable
  | timeout
  | other
deriving DecidableEq

/-- `humanizeGeoError(err)` (source lines 220–227). -/
def humanizeGeoError (code : GeoErrorCode) : String :=
  match code with
  | .permissionDenied => "Permission denied. Please allow location access."
  | .positionUnavailable =>
      "Position unavailable. Try moving to an open area or check your connection."
  | .timeout => "Location request timed out. Try again."
  | .other => "An unknown geolocation error occurred."

/-- The component's module-level mutable state (source lines 5–28).  The
Leaflet map references (`mapEl, L, map, userMarker, targetMarker, lineLayer`)
are presentation objects and are not part of the modelled state. -/
structure AppState where
  currentPosition : Option Position
  errorMessage : Option String
  permissionState : String
  watching : Bool
  target : Coord
  watchId : Option ℕ
  highAccuracy : Bool
  headingDeg : Option ℚ
  usingAbs : Bool
deriving DecidableEq

/-- The pre-filled target (source line 11). -/
def initTarget : Coord := ⟨42.05913363079434, 19.51725368912721⟩

/-- The initial state of the component (source lines 5–28). -/
def initState : AppState where
  currentPosition := none
  errorMessage := none
  permissionState := "unknown"
  watching := false
  target := initTarget
  watchId := none
  highAccuracy := true
  headingDeg := none
  usingAbs := false

/-- Reactive declaration `$: distanceMeters = ...` (source lines 33–40). -/
noncomputable def distanceMeters (s : AppState) : Option ℝ :=
  s.currentPosition.map fun p =>
    haversineMeters p.coords.latitude p.coords.longitude s.target.lat s.target.lon

/-- JS `d ?? Infinity` for an optional real, valued in the extended reals. -/
def orInfinity (d : Option ℝ) : EReal := (d.map fun x => (x : EReal)).getD ⊤

/-- `(distanceMeters ?? Infinity) <= 15` as a predicate on the distance value
(source line 42). -/
def insideZoneVal (d : Option ℝ) : Prop := orInfinity d ≤ ((15 : ℝ) : EReal)

/-- Reactive declaration `$: insideZone = (distanceMeters ?? Infinity) <= 15`
(source line 42). -/
noncomputable def insideZone (s : AppState) : Prop := insideZoneVal (distanceMeters s)

/-- Reactive declaration `$: bearingDeg = ...` (source lines 44–51). -/
noncomputable def bearingDeg (s : AppState) : Option ℝ :=
  s.currentPosition.map fun p =>
    initialBearing p.coords.latitude p.coords.longitude s.target.lat s.target.lon

/-- The turn expression `(bearingDeg - headingDeg + 360) % 360` (source line 54). -/
noncomputable def turnOf (b h : ℝ) : ℝ := jsMod (b - h + 360) 360

/-- Reactive declaration `$: turnDeg = ...` (source lines 53–55). -/
noncomputable def turnDeg (s : AppState) : Option ℝ :=
  match bearingDeg s, s.headingDeg with
  | some b, some h => some (turnOf b (h : ℝ))
  | _, _ => none

/-- The turn rendering `turnDeg <= 180 ? 'right →' : 'left ←'` (source line 334). -/
noncomputable def turnLabel (t : ℝ) : String :=
  if t ≤ 180 then "right →" else "left ←"

/-- The browser geolocation service: whether `navigator.geolocation` exists,
and which watch ids `watchPosition` has registered and `clearWatch` has not
yet removed. -/
structure Platform where
  supported : Bool
  active : List ℕ
  nextId : ℕ
deriving DecidableEq

/-- `navigator.geolocation.watchPosition(...)`: registers the callbacks under a
fresh id and returns that id. -/
def watchPositionReg (p : Platform) : ℕ × Platform :=
  (p.nextId, { p with active := p.nextId :: p.active, nextId := p.nextId + 1 })

/-- `navigator.geolocation.clearWatch(id)`: unregisters the watch. -/
def clearWatchReg (p : Platform) (i : ℕ) : Platform :=
  { p with active := p.active.erase i }

/-- The success callback passed to `watchPosition` (source lines 70–76): stores
the fix and, when it carries a numeric heading, normalizes it with
`(pos.coords.heading + 360) % 360`. -/
def handleSuccess (s : AppState) (pos : Position) : AppState :=
  let s1 := { s with currentPosition := some pos }
  match pos.coords.heading with
  | some h => { s1 with headingDeg := some (jsModQ (h + 360) 360) }
  | none => s1

/-- The error callback passed to `watchPosition` (source line 77). -/
def handleError (s : AppState) (code : GeoErrorCode) : AppState :=
  { s with errorMessage := some (humanizeGeoError code), watching := false }

/-- The message set when `navigator.geolocation` is absent (source line 61). -/
def unsupportedMsg : String := "Geolocation is not supported in this browser."

/-- `startWatching()` (source lines 58–80).  `checkPermission()` is an
asynchronous fire-and-forget that only touches `permissionState`; its deferred
effect is not modelled. -/
def startWatching (s : AppState) (p : Platform) : AppState × Platform :=
  let s1 := { s with errorMessage := none }
  if p.supported = false then
    ({ s1 with errorMessage := some unsupportedMsg }, p)
  else
    let s2 := { s1 with watching := true }
    let r := watchPositionReg p
    ({ s2 with watchId := some r.1 }, r.2)

/-- `stopWatching()` (source lines 82–88). -/
def stopWatching (s : AppState) (p : Platform) : AppState × Platform :=
  match s.watchId with
  | some i => ({ s with watchId := none, watching := false }, clearWatchReg p i)
  | none => ({ s with watching := false }, p)

/-- The platform delivering a position update for watch `i`: the registered
success callback runs only while `i` is still registered (`clearWatch`
unregisters deterministically before returning). -/
def deliverPosition (s : AppState) (p : Platform) (i : ℕ) (pos : Position) :
    AppState :=
  if i ∈ p.active then handleSuccess s pos else s

/-- `useCurrentAsTarget()` (source lines 100–105); the `targetMarker` /
`fitBounds` calls are Leaflet presentation effects outside the modelled state. -/
def useCurrentAsTarget (s : AppState) : AppState :=
  match s.currentPosition with
  | none => s
  | some pos =>
    { s with target := ⟨pos.coords.latitude, pos.coords.longitude⟩ }

/-- A sample geolocation fix with no heading data. -/
def posA : Position := ⟨⟨42, 19, none⟩⟩

/-- The state after a timeout error has been surfaced. -/
def errState : AppState := handleError initState GeoErrorCode.timeout

/-- A fresh platform with geolocation support and no registered watch. -/
def freshPlatform : Platform := ⟨true, [], 0⟩

/-- The component after one `startWatching` call on a fresh platform. -/
def startedOnce : AppState × Platform := startWatching initState freshPlatform

/-- The component after a second `startWatching` call while already watching. -/
def startedTwice : AppState × Platform := startWatching startedOnce.1 startedOnce.2

/-- The component after starting once and then calling `stopWatching`. -/
def stoppedState : AppState × Platform := stopWatching startedOnce.1 startedOnce.2

/-- The state after one successful fix (no heading) from the initial state. -/
def posState : AppState := handleSuccess initState posA

lemma insideZoneVal_iff (d : Option ℝ) :
    insideZoneVal d ↔ ∃ x : ℝ, d = some x ∧ x ≤ 15 := by
  cases d with
  | none => simp [insideZoneVal, orInfinity, top_le_iff, EReal.coe_ne_top]
  | some x => simp [insideZoneVal, orInfinity, EReal.coe_le_coe_iff]

/-- C5: in every state `insideZone` holds iff `distanceMeters` is non-null and
at most 15; it is false for a null distance and for a distance of
15.0000001 m. -/
theorem c5_insideZone_iff :
    (∀ s : AppState, insideZone s ↔ ∃ x : ℝ, distanceMeters s = some x ∧ x ≤ 15) ∧
    ¬ insideZoneVal none ∧ ¬ insideZoneVal (some ((15.0000001 : ℝ))) := by
  refine ⟨fun s => ?_, ?_, ?_⟩
  · simpa [insideZone] using insideZoneVal_iff (distanceMeters s)
  · simp [insideZoneVal_iff]
  · rw [insideZoneVal_iff]
    simp only [Option.some.injEq, exists_eq_left]
    push_neg
    intro x hx
    rw [← hx]
    norm_num

/-- C6: while no position fix has arrived, every derived value is null and
`insideZone` is false; in particular the distance is never defaulted to zero
(`distanceMeters` is `none`, not `some 0`), and every derived computation is a
total function. -/
theorem c6_no_fix_all_null :
    ∀ s : AppState, s.currentPosition = none →
      distanceMeters s = none ∧ bearingDeg s = none ∧ turnDeg s = none ∧
      ¬ insideZone s := by
  intro s h
  have hd : distanceMeters s = none := by simp [distanceMeters, h]
  have hb : bearingDeg s = none := by simp [bearingDeg, h]
  refine ⟨hd, hb, ?_, ?_⟩
  · cases hh : s.headingDeg <;> simp [turnDeg, hb, hh]
  · simp [insideZone, hd, insideZoneVal_iff]

/-- C6 witness: at the initial state all derived values are null/false. -/
theorem c6_no_fix_all_null_witness :
    distanceMeters initState = none ∧ bearingDeg initState = none ∧
    turnDeg initState = none ∧ ¬ insideZone initState :=
  c6_no_fix_all_null initState rfl

/-- C10: `useCurrentAsTarget` is a no-op while no fix has arrived; with a fix
it rewrites only `target`, to the current coordinates, leaving every other
state field unchanged. -/
theorem c10_useCurrentAsTarget_frame :
    ∀ s : AppState,
      (s.currentPosition = none → useCurrentAsTarget s = s) ∧
      (∀ pos : Position, s.currentPosition = some pos →
        useCurrentAsTarget s =
          { s with target := ⟨pos.coords.latitude, pos.coords.longitude⟩ }) := by
  intro s
  constructor
  · intro h
    simp [useCurrentAsTarget, h]
  · intro pos h
    simp [useCurrentAsTarget, h]

/-- C10 witness: concrete runs of both branches of `useCurrentAsTarget`. -/
theorem c10_useCurrentAsTarget_frame_witness :
    useCurrentAsTarget initState = initState ∧
    useCurrentAsTarget posState =
      { posState with target := ⟨posA.coords.latitude, posA.coords.longitude⟩ } :=
  ⟨(c10_useCurrentAsTarget_frame initState).1 rfl,
   (c10_useCurrentAsTarget_frame posState).2 posA (by decide)⟩

/-- C2 counterexample: with the timeout error showing, a subsequent successful
position update leaves `errorMessage` exactly as it was — it does not reset
the visible error. -/
theorem c2_counterexample :
    errState.errorMessage ≠ none ∧
    (handleSuccess errState posA).errorMessage = errState.errorMessage ∧
    (handleSuccess errState posA).errorMessage ≠ none := by decide

/-- C2 amended: the success callback never touches `errorMessage`; a surfaced
sensor error clears only when `startWatching` runs again, which nulls the
message on entry (when geolocation is supported). -/
theorem c2_error_unchanged_by_success :
    (∀ s : AppState, ∀ pos : Position,
      (handleSuccess s pos).errorMessage = s.errorMessage) ∧
    (∀ s : AppState, ∀ p : Platform, p.supported = true →
      (startWatching s p).1.errorMessage = none) := by
  constructor
  · intro s pos
    cases hh : pos.coords.heading <;> simp [handleSuccess, hh]
  · intro s p h
    simp [startWatching, h]

/-- C3 counterexample: starting twice from a fresh platform leaves the first
watch (id 0) registered alongside the second (id 1); the old platform
subscription is not cleared. -/
theorem c3_counterexample :
    startedOnce.1.watchId = some 0 ∧ startedTwice.1.watchId = some 1 ∧
    0 ∈ startedTwice.2.active ∧ 1 ∈ startedTwice.2.active := by decide

/-- C3 amended: calling `startWatching` while a watch is active registers a new
platform subscription and overwrites `watchId`, but the previously registered
subscription remains active (it is never cleared). -/
theorem c3_restart_leaks_previous_watch :
    ∀ s : AppState, ∀ p : Platform, ∀ i : ℕ,
      p.supported = true → s.watchId = some i → i ∈ p.active →
      (startWatching s p).1.watchId = some p.nextId ∧
      p.nextId ∈ (startWatching s p).2.active ∧
      i ∈ (startWatching s p).2.active := by
  intro s p i hs hw hi
  refine ⟨?_, ?_, ?_⟩ <;> simp [startWatching, watchPositionReg, hs]
  exact Or.inr hi

/-- C3 witness: restarting after the first start leaks watch id 0. -/
theorem c3_restart_leaks_previous_watch_witness :
    (startWatching startedOnce.1 startedOnce.2).1.watchId =
      some startedOnce.2.nextId ∧
    startedOnce.2.nextId ∈ (startWatching startedOnce.1 startedOnce.2).2.active ∧
    0 ∈ (startWatching startedOnce.1 startedOnce.2).2.active :=
  c3_restart_leaks_previous_watch startedOnce.1 startedOnce.2 0
    (by decide) (by decide) (by decide)

/-- C1 counterexample: after stopping the watch, forcing the success callback
directly (the simulated in-flight race) does mutate state: `currentPosition`
changes and `distanceMeters` goes from null to non-null. -/
theorem c1_counterexample :
    stoppedState.1.watching = false ∧ stoppedState.1.watchId = none ∧
    stoppedState.1.currentPosition = none ∧
    (handleSuccess stoppedState.1 posA).currentPosition = some posA ∧
    distanceMeters stoppedState.1 = none ∧
    distanceMeters (handleSuccess stoppedState.1 posA) ≠ none := by
  refine ⟨by decide, by decide, by decide, by decide, ?_, ?_⟩
  · simp [distanceMeters, show stoppedState.1.currentPosition = none by decide]
  · simp [distanceMeters,
      show (handleSuccess stoppedState.1 posA).currentPosition = some posA
        by decide]

/-- C1 amended: `stopWatching` deterministically unregisters the watch before
returning (`watchId` becomes null, `watching` false, the id leaves the
platform's active set), so a late position update delivered through the
platform for the stopped watch id is a no-op on the state and hence on every
derived value; the raw success callback itself performs no liveness check. -/
theorem c1_stop_unregisters :
    ∀ s : AppState, ∀ p : Platform, ∀ i : ℕ, ∀ pos : Position,
      s.watchId = some i → p.active.count i ≤ 1 →
      (stopWatching s p).1.watchId = none ∧
      (stopWatching s p).1.watching = false ∧
      i ∉ (stopWatching s p).2.active ∧
      deliverPosition (stopWatching s p).1 (stopWatching s p).2 i pos =
        (stopWatching s p).1 := by
  intro s p i pos hw hc
  have hstop : stopWatching s p =
      ({ s with watchId := none, watching := false }, clearWatchReg p i) := by
    simp [stopWatching, hw]
  have hcount : (p.active.erase i).count i = 0 := by
    rw [List.count_erase_self]
    omega
  have hnotmem : i ∉ (clearWatchReg p i).active := by
    rw [clearWatchReg]
    exact List.count_eq_zero.mp hcount
  rw [hstop]
  exact ⟨rfl, rfl, hnotmem, by simp [deliverPosition, hnotmem]⟩

/-- C1 witness: stopping the started component unregisters watch id 0 and a
late delivery for it changes nothing. -/
theorem c1_stop_unregisters_witness :
    (stopWatching startedOnce.1 startedOnce.2).1.watchId = none ∧
    (stopWatching startedOnce.1 startedOnce.2).1.watching = false ∧
    0 ∉ (stopWatching startedOnce.1 startedOnce.2).2.active ∧
    deliverPosition (stopWatching startedOnce.1 startedOnce.2).1
        (stopWatching startedOnce.1 startedOnce.2).2 0 posA =
      (stopWatching startedOnce.1 startedOnce.2).1 :=
  c1_stop_unregisters startedOnce.1 startedOnce.2 0 posA (by decide) (by decide)

/-- C4 counterexample: a state with a fix and no heading has `turnDeg` null —
not non-null as claimed; only `bearingDeg` stays non-null. -/
theorem c4_counterexample :
    posState.currentPosition = some posA ∧ posState.headingDeg = none ∧
    bearingDeg posState ≠ none ∧ turnDeg posState = none := by
  have h1 : posState.currentPosition = some posA := by decide
  have h2 : posState.headingDeg = none := by decide
  obtain ⟨b, hb⟩ : ∃ b, bearingDeg posState = some b := by
    simp [bearingDeg, h1]
  refine ⟨h1, h2, ?_, ?_⟩
  · rw [hb]
    simp
  · simp [turnDeg, hb, h2]

/-- C4 amended: without heading data the bearing stays computable and non-null
(`bearingDeg` needs only the fix and target), but `turnDeg` is null: it
requires both a bearing and a heading. -/
theorem c4_no_heading_keeps_bearing :
    ∀ s : AppState, s.currentPosition ≠ none → s.headingDeg = none →
      bearingDeg s ≠ none ∧ turnDeg s = none := by
  intro s h1 h2
  obtain ⟨p0, hp⟩ := Option.ne_none_iff_exists'.mp h1
  obtain ⟨b, hb⟩ : ∃ b, bearingDeg s = some b := by
    simp [bearingDeg, hp]
  constructor
  · rw [hb]
    simp
  · simp [turnDeg, hb, h2]

/-- C4 witness: the amended property at the concrete no-heading state. -/
theorem c4_no_heading_keeps_bearing_witness :
    bearingDeg posState ≠ none ∧ turnDeg posState = none :=
  c4_no_heading_keeps_bearing posState (by decide) (by decide)

lemma jsTrunc_of_nonneg {x : ℝ} (h : 0 ≤ x) : jsTrunc x = ⌊x⌋ := if_pos h

lemma jsMod_360 (x : ℝ) (hx : 0 < x) :
    0 ≤ jsMod x 360 ∧ jsMod x 360 < 360 ∧ ∃ k : ℤ, jsMod x 360 = x + 360 * k := by
  have hdiv : (0 : ℝ) ≤ x / 360 := by positivity
  have heq : jsMod x 360 = 360 * Int.fract (x / 360) := by
    rw [jsMod, jsTrunc_of_nonneg hdiv, Int.fract]
    ring
  refine ⟨?_, ?_, ⟨-⌊x / 360⌋, ?_⟩⟩
  · rw [heq]
    exact mul_nonneg (by norm_num) (Int.fract_nonneg _)
  · rw [heq]
    have h1 := Int.fract_lt_one (x / 360)
    nlinarith
  · rw [jsMod, jsTrunc_of_nonneg hdiv]
    push_cast
    ring

/-- C7: for bearings and headings in [0, 360) the turn value is the value of
`(bearing - heading + 360) mod 360`: it lies in [0, 360) and differs from
`bearing - heading + 360` by an integer multiple of 360; values at most 180
render as a right turn and values above 180 as a left turn; in particular
heading 350 and bearing 10 give a turn of 20 labelled right. -/
theorem c7_turn_formula :
    (∀ b h : ℝ, 0 ≤ b → b < 360 → 0 ≤ h → h < 360 →
      0 ≤ turnOf b h ∧ turnOf b h < 360 ∧
        ∃ k : ℤ, turnOf b h = b - h + 360 + 360 * k) ∧
    (∀ t : ℝ, (t ≤ 180 → turnLabel t = "right →") ∧
      (180 < t → turnLabel t = "left ←")) ∧
    turnOf 10 350 = 20 ∧ turnLabel (turnOf 10 350) = "right →" := by
  have h2020 : turnOf 10 350 = 20 := by
    have h20 : (10 : ℝ) - 350 + 360 = 20 := by norm_num
    have htr : jsTrunc ((20 : ℝ) / 360) = 0 := by
      rw [jsTrunc_of_nonneg (by norm_num), Int.floor_eq_zero_iff, Set.mem_Ico]
      constructor <;> norm_num
    rw [turnOf, h20, jsMod, htr]
    norm_num
  refine ⟨?_, ?_, h2020, ?_⟩
  · intro b h hb hb2 hh hh2
    have hx : 0 < b - h + 360 := by linarith
    rw [turnOf]
    exact jsMod_360 (b - h + 360) hx
  · intro t
    constructor
    · intro ht
      rw [turnLabel, if_pos ht]
    · intro ht
      rw [turnLabel, if_neg (not_le.mpr ht)]
  · rw [h2020, turnLabel, if_pos (by norm_num)]

/-- C7 witness: the general turn bounds at bearing 10, heading 350. -/
theorem c7_turn_formula_witness :
    0 ≤ turnOf 10 350 ∧ turnOf 10 350 < 360 ∧
      ∃ k : ℤ, turnOf 10 350 = 10 - 350 + 360 + 360 * k :=
  c7_turn_formula.1 10 350 (by norm_num) (by norm_num) (by norm_num) (by norm_num)

/-- C8: the haversine great-circle distance is symmetric in its two
coordinates — exactly so in the real-number model, hence in particular within
any relative tolerance. -/
theorem c8_haversine_symm :
    ∀ lat1 lon1 lat2 lon2 : ℝ,
      haversineMeters lat1 lon1 lat2 lon2 = haversineMeters lat2 lon2 lat1 lon1 := by
  intro lat1 lon1 lat2 lon2
  have hsin : ∀ u v : ℝ,
      Real.sin (toRad (u - v) / 2) ^ 2 = Real.sin (toRad (v - u) / 2) ^ 2 := by
    intro u v
    have hneg : toRad (u - v) = -toRad (v - u) := by
      rw [toRad, toRad]
      ring
    rw [hneg, neg_div, Real.sin_neg, neg_sq]
  simp only [haversineMeters]
  rw [hsin lat2 lat1, hsin lon2 lon1,
    mul_comm (Real.cos (toRad lat1)) (Real.cos (toRad lat2))]

lemma degToCompass_eval (x : ℝ) (m : ℤ) (hm : jsRound (x / 22.5) = m)
    (h : 0 ≤ Int.tmod m 16 ∧ (Int.tmod m 16).toNat < dirs.length) :
    degToCompass (some x) = some (dirs.get ⟨(Int.tmod m 16).toNat, h.2⟩) := by
  subst hm
  simp only [degToCompass]
  rw [dif_pos h]

/-- C9: for degrees in [0, 360) the compass label is one of the 16
compass-point abbreviations, chosen by rounding to the nearest 22.5° sector
modulo 16; in particular 0 ↦ N, 90 ↦ E, 180 ↦ S, 270 ↦ W. -/
theorem c9_degToCompass_sectors :
    (∀ d : ℝ, 0 ≤ d → d < 360 →
      ∃ lbl : String, degToCompass (some d) = some lbl ∧ lbl ∈ dirs) ∧
    degToCompass (some ((0 : ℝ))) = some ("N") ∧
    degToCompass (some ((90 : ℝ))) = some ("E") ∧
    degToCompass (some ((180 : ℝ))) = some ("S") ∧
    degToCompass (some ((270 : ℝ))) = some ("W") := by
  have heval : ∀ x : ℝ, ∀ n : ℤ, jsRound (x / 22.5) = n → 0 ≤ Int.tmod n 16 →
      (Int.tmod n 16).toNat < dirs.length →
      ∃ lbl : String, degToCompass (some x) = some lbl ∧ lbl ∈ dirs := by
    intro x n hn h0 hlen
    exact ⟨_, degToCompass_eval x n hn ⟨h0, hlen⟩, List.get_mem _ _ _⟩
  refine ⟨?_, ?_, ?_, ?_, ?_⟩
  · intro d hd0 hd360
    have h0 : 0 ≤ jsRound (d / 22.5) := by
      rw [jsRound]
      refine Int.floor_nonneg.mpr ?_
      have := div_nonneg hd0 (by norm_num : (0 : ℝ) ≤ 22.5)
      linarith
    have ht0 : 0 ≤ Int.tmod (jsRound (d / 22.5)) 16 := by
      rw [Int.tmod_eq_emod h0 (by norm_num)]
      exact Int.emod_nonneg _ (by norm_num)
    have ht16 : Int.tmod (jsRound (d / 22.5)) 16 < 16 := by
      rw [Int.tmod_eq_emod h0 (by norm_num)]
      exact Int.emod_lt_of_pos _ (by norm_num)
    have hlen : (Int.tmod (jsRound (d / 22.5)) 16).toNat < dirs.length := by
      show _ < 16
      omega
    exact heval d (jsRound (d / 22.5)) rfl ht0 hlen
  · rw [degToCompass_eval 0 0 ?_ (by decide)]
    · rfl
    · rw [jsRound, Int.floor_eq_zero_iff, Set.mem_Ico]
      constructor <;> norm_num
  · rw [degToCompass_eval 90 4 ?_ (by decide)]
    · rfl
    · rw [jsRound, Int.floor_eq_iff]
      constructor <;> norm_num
  · rw [degToCompass_eval 180 8 ?_ (by decide)]
    · rfl
    · rw [jsRound, Int.floor_eq_iff]
      constructor <;> norm_num
  · rw [degToCompass_eval 270 12 ?_ (by decide)]
    · rfl
    · rw [jsRound, Int.floor_eq_iff]
      constructor <;> norm_num

end Location
